import Mathlib

/-!
Verification of the `assert` package (the canonical, second version of
`assert.go`): a shallow embedding of its comparator (`isEqual`), nilness
check (`isNil`), message formatter (`formatMsg`) and public assertion
functions (`Equal`, `NotEqual`, `Nil`, `NotNil`, `ErrorIs`, `ErrorAs`,
`MatchesRegexp`), together with theorems settling the specification's
claims about them.

Modelling conventions:
* Go dynamic values are the inductive `GoVal`.  Floating-point numbers are
  abstracted to `Option Int` (`none` models a NaN, whose `==` is false even
  against itself; `some q` models an ordinary number compared by value).
  Pointers are modelled by their pointed-to value (distinct allocations);
  channels and functions by an identity token, `none` meaning the nil
  reference.  Struct field names are dropped (two values of the same
  struct type always agree on them), keeping the field values in order.
* The generic instantiation `isEqual[T]` is modelled by passing the type
  argument `GoTy` explicitly: `GoTy.concrete n` is a concrete named type,
  `GoTy.anyTy` an interface type.  A custom type with an `Equal(T) bool`
  method (like `noisy` in the package's tests, whose `Equal` ignores the
  `noise` field) is `GoVal.vCustom ty key noise`; its method satisfies the
  `equaler[T]` assertion exactly when `T` is that concrete type.
* A Go runtime panic (failed type assertion, nil-interface method call,
  `errors.As` target validation) is the `.error` branch of
  `Except String _`; functions whose bodies contain no panicking
  operation keep a total return type.
* Errors are `GoError` (a base error or a wrapping error, each carrying
  its dynamic type name and rendered message); an `error` interface value
  is `Option GoError`, `none` being the nil error.
* Reports to the `TestingT` handle are captured structurally: a `Report`
  records whether the fatal entry point was used (`Fatalf` vs `Errorf`),
  the format string verbatim from the source, and the argument list, one
  `Arg` per Go argument in source order.  Rendering by Go's `fmt` is not
  modelled; the host formatting functions that `formatMsg` delegates to
  (`fmt.Fprintf` / `fmt.Fprint`) are parameters of the model (`FmtEnv`).
-/

namespace Assert

/-- The type argument at which the generic `isEqual[T]` is instantiated:
a concrete named type, or an interface type (`any`). -/
inductive GoTy where
  | concrete (name : String)
  | anyTy
deriving DecidableEq, Repr

/-- A Go dynamic value, as classified by the package: primitives, byte
slices, other slices, pointers, functions, channels, structs, values of a
custom type carrying an `Equal` method, and the untyped nil interface. -/
inductive GoVal where
  | vBool (b : Bool)
  | vInt (width : Nat) (n : Int)
  | vFloat (x : Option Int)
  | vString (s : String)
  | vBytes (bs : Option (List Nat))
  | vSlice (elemTy : String) (xs : Option (List GoVal))
  | vPtr (ty : String) (target : Option GoVal)
  | vFunc (id : Option Nat)
  | vChan (id : Option Nat)
  | vStruct (ty : String) (fields : List GoVal)
  | vCustom (ty : String) (key : Int) (noise : Int)
  | vNilInterface

/-- `isNil(v)`: true for the untyped nil interface, and for a value of
chan, func, map, pointer or slice kind whose reference is nil; false for
all value kinds and non-nil references (`assert.go` line 333). -/
def isNil : GoVal → Bool
  | .vNilInterface => true
  | .vBytes none => true
  | .vSlice _ none => true
  | .vPtr _ none => true
  | .vFunc none => true
  | .vChan none => true
  | _ => false

/-- Whether the type assertion `any(got).(equaler[T])` succeeds: the
custom types of the model implement `Equal` at their own concrete type
(as `noisy` does in the package's tests), so the assertion holds exactly
for a `vCustom` value at its concrete type. -/
def implementsEqualer : GoVal → GoTy → Bool
  | .vCustom ty _ _, .concrete t => ty == t
  | _, _ => false

/-- The custom `Equal` method of a `vCustom` value: compares the `key`
field only, ignoring `noise` (like `noisy.Equal` in the package tests). -/
def customEqual : GoVal → GoVal → Bool
  | .vCustom _ k _, .vCustom _ k2 _ => k == k2
  | _, _ => false

/-- `bytes.Equal(a, b)`: same length and same bytes; a nil slice behaves
as an empty one. -/
def bytesEqual (a b : Option (List Nat)) : Bool :=
  a.getD [] == b.getD []

mutual

/-- `reflect.DeepEqual` restricted to the modelled value universe:
values of distinct dynamic types are never equal; numbers by `==` (so a
NaN is not deeply equal to itself); slices need equal nilness, length and
elements; pointers by pointed-to value; functions are deeply equal only
when both are nil; channels by identity; structs fieldwise. -/
def deepEqual : GoVal → GoVal → Bool
  | .vBool a, .vBool b => a == b
  | .vInt w a, .vInt w2 b => w == w2 && a == b
  | .vFloat (some a), .vFloat (some b) => a == b
  | .vString a, .vString b => a == b
  | .vBytes none, .vBytes none => true
  | .vBytes (some xs), .vBytes (some ys) => xs == ys
  | .vSlice t none, .vSlice t2 none => t == t2
  | .vSlice t (some xs), .vSlice t2 (some ys) => t == t2 && deepEqualList xs ys
  | .vPtr t none, .vPtr t2 none => t == t2
  | .vPtr t (some x), .vPtr t2 (some y) => t == t2 && deepEqual x y
  | .vFunc none, .vFunc none => true
  | .vChan a, .vChan b => a == b
  | .vStruct t fs, .vStruct t2 gs => t == t2 && deepEqualList fs gs
  | .vCustom t k n, .vCustom t2 k2 n2 => t == t2 && k == k2 && n == n2
  | .vNilInterface, .vNilInterface => true
  | _, _ => false

/-- Elementwise `reflect.DeepEqual` of two slices of the same element
type (lengths must match). -/
def deepEqualList : List GoVal → List GoVal → Bool
  | [], [] => true
  | x :: xs, y :: ys => deepEqual x y && deepEqualList xs ys
  | _, _ => false

end

/-- `isEqual[T](got, want)` (`assert.go` line 314): double-nil
short-circuit, then delegation to the `equaler[T]` capability of `got`,
then the byte-slice special case (whose unchecked type assertion
`any(want).([]byte)` panics when `got` is a byte slice and `want` is
not), then `reflect.DeepEqual`. -/
def isEqual (T : GoTy) (got want : GoVal) : Except String Bool :=
  if isNil got && isNil want then .ok true
  else if implementsEqualer got T then .ok (customEqual got want)
  else
    match got with
    | .vBytes a =>
      match want with
      | .vBytes b => .ok (bytesEqual a b)
      | _ => .error "interface conversion: want is not a byte slice"
    | _ => .ok (deepEqual got want)

/-- A Go error value: a base error or an error wrapping another (as
produced by `fmt.Errorf` with `%w`), each carrying its dynamic type name
and its rendered message (what `Error()` returns). -/
inductive GoError where
  | base (ty : String) (id : Nat) (msg : String)
  | wrap (ty : String) (msg : String) (inner : GoError)
deriving DecidableEq, Repr

/-- The rendered message of an error, i.e. its `Error()` method. -/
def errMsg : GoError → String
  | .base _ _ m => m
  | .wrap _ m _ => m

/-- The dynamic type name of an error, as `%T` would render it. -/
def errTy : GoError → String
  | .base t _ _ => t
  | .wrap t _ _ => t

/-- `errors.Is(g, w)` for non-nil `g`: `g` equals `w`, or some error it
transitively wraps does. -/
def errorIs (g w : GoError) : Bool :=
  g == w ||
    match g with
    | .wrap _ _ inner => errorIs inner w
    | .base _ _ _ => false

/-- `errors.Is(got, w)` on an error interface value (nil `got` matches
nothing non-nil). -/
def errorsIs : Option GoError → GoError → Bool
  | none, _ => false
  | some g, w => errorIs g w

/-- `errors.As(g, target)` for non-nil `g` and a target pointing at the
concrete error type named `ty`: some link of `g`'s wrap chain has dynamic
type `ty`. -/
def errorAs (g : GoError) (ty : String) : Bool :=
  errTy g == ty ||
    match g with
    | .wrap _ _ inner => errorAs inner ty
    | .base _ _ _ => false

/-- `errors.As(got, target)` on an error interface value. -/
def errorsAs : Option GoError → String → Bool
  | none, _ => false
  | some g, ty => errorAs g ty

/-- Whether `needle` occurs at the very start of `hay`. -/
def charsLeading : List Char → List Char → Bool
  | [], _ => true
  | _ :: _, [] => false
  | c :: cs, d :: ds => c == d && charsLeading cs ds

/-- Whether `needle` occurs contiguously anywhere in `hay`. -/
def charsContain (needle : List Char) : List Char → Bool
  | [] => charsLeading needle []
  | d :: ds => charsLeading needle (d :: ds) || charsContain needle ds

/-- `strings.Contains(hay, needle)`. -/
def strContains (hay needle : String) : Bool :=
  charsContain needle.toList hay.toList

/-- The `target any` argument of `ErrorAs`: `ptr ty` is a non-nil pointer
to a variable of the concrete error type named `ty` (a valid `errors.As`
target); `invalid panicMsg tyName` is any other value — nil, a
non-pointer, a nil pointer, or a pointer to a type that neither
implements `error` nor is an interface — for which `errors.As` panics
with message `panicMsg` once it is reached with a non-nil error
(`tyName` is the value's dynamic type name, as `%T` renders it). -/
inductive ErrTarget where
  | ptr (ty : String)
  | invalid (panicMsg : String) (tyName : String)
deriving DecidableEq, Repr

/-- One Go argument passed to a reporting call, in source order: a value,
an error interface value, a string, a `reflect.Type` descriptor, or the
`ErrorAs` target. -/
inductive Arg where
  | aVal (v : GoVal)
  | aErr (e : Option GoError)
  | aStr (s : String)
  | aTy (name : String)
  | aTarget (t : ErrTarget)

/-- One report made through the `TestingT` handle: whether the fatal
entry point was used, the format string verbatim from the source, and the
arguments following it. -/
structure Report where
  fatal : Bool
  format : String
  args : List Arg

/-- One element of the variadic `msgAndArgs ...any` list: a plain string
or some other value. -/
inductive MsgArg where
  | mStr (s : String)
  | mVal (v : GoVal)

/-- The host formatting facilities `formatMsg` delegates to, kept
abstract: `sprintf` models `fmt.Fprintf` of a template and arguments,
`sprint1` models `fmt.Fprint` of one argument, `sprintN` models
`fmt.Fprint` of the whole argument list. -/
structure FmtEnv where
  sprintf : String → List MsgArg → String
  sprint1 : MsgArg → String
  sprintN : List MsgArg → String

/-- `formatMsg(msgAndArgs ...any)` (`assert.go` line 346): empty for no
arguments; for one argument, a space then the string verbatim (or its
default rendering when not a string); for two or more, a space then the
first argument used as a format template over the rest when it is a
string, or the default rendering of all arguments otherwise. -/
def formatMsg (env : FmtEnv) : List MsgArg → String
  | [] => ""
  | [a] =>
    " " ++
      match a with
      | .mStr s => s
      | .mVal v => env.sprint1 (.mVal v)
  | a :: rest =>
    " " ++
      match a with
      | .mStr s => env.sprintf s rest
      | .mVal v => env.sprintN (.mVal v :: rest)

/-- A concrete `FmtEnv` instance used to state closed counterexamples and
witnesses (its choice is immaterial there: the suffix in play is always
`formatMsg _ [] = ""`). -/
def plainFmt : FmtEnv where
  sprintf f _ := f
  sprint1 _ := ""
  sprintN _ := ""

/-- `Equal(t, got, want, msgAndArgs...)` (`assert.go` line 213): reports
nothing when `isEqual` holds, otherwise calls `t.Errorf` with the format
`"got: %#v; want: %#v;%s"` and arguments `got`, `want` and the formatted
suffix.  A panic of `isEqual` unwinds through it. -/
def Equal (env : FmtEnv) (T : GoTy) (got want : GoVal) (msg : List MsgArg) :
    Except String (List Report) :=
  match isEqual T got want with
  | .error e => .error e
  | .ok true => .ok []
  | .ok false =>
    .ok [⟨false, "got: %#v; want: %#v;%s",
      [.aVal got, .aVal want, .aStr (formatMsg env msg)]⟩]

/-- `NotEqual(t, got, want, msgAndArgs...)` (`assert.go` line 223):
reports through `t.Errorf` exactly when `isEqual` holds. -/
def NotEqual (env : FmtEnv) (T : GoTy) (got want : GoVal) (msg : List MsgArg) :
    Except String (List Report) :=
  match isEqual T got want with
  | .error e => .error e
  | .ok true =>
    .ok [⟨false, "got: %#v; expected values to be different;%s",
      [.aVal got, .aStr (formatMsg env msg)]⟩]
  | .ok false => .ok []

/-- `Nil(t, got, msgAndArgs...)` (`assert.go` line 233). -/
def Nil (env : FmtEnv) (got : GoVal) (msg : List MsgArg) : List Report :=
  if !isNil got then
    [⟨false, "got: %#v; want: <nil>;%s", [.aVal got, .aStr (formatMsg env msg)]⟩]
  else []

/-- `NotNil(t, got, msgAndArgs...)` (`assert.go` line 243). -/
def NotNil (env : FmtEnv) (got : GoVal) (msg : List MsgArg) : List Report :=
  if isNil got then
    [⟨false, "got: <nil>; expected non-nil;%s", [.aStr (formatMsg env msg)]⟩]
  else []

/-- The dynamic shape of the `want any` argument of `ErrorIs`, matching
the source's type switch arms: nil, a string, a (non-nil) error value, a
`reflect.Type` (split by whether the described concrete type implements
`error` — `wType` — or neither implements `error` nor is an interface —
`wTypeNonErr`, for which `errors.As` panics on the `*T` target that
`reflect.New` builds, once reached with a non-nil error), or anything
else (whose dynamic type name is kept for the `%T` rendering). -/
inductive ErrWant where
  | wNil
  | wStr (s : String)
  | wErr (e : GoError)
  | wType (ty : String)
  | wTypeNonErr (ty : String)
  | wOther (tyName : String)

/-- `ErrorIs(t, got, want, msgAndArgs...)` (`assert.go` line 253),
dispatching on the dynamic shape of `want`.  In the string arm the source
calls `got.Error()` before any nil check, so a nil `got` there is a nil
interface method call: a runtime panic, modelled by the `.error` branch.
In the `reflect.Type` arm, `errors.As` (Go 1.21+) first returns false
for a nil error, and otherwise panics when the described type neither
implements `error` nor is an interface. -/
def ErrorIs (env : FmtEnv) (got : Option GoError) (want : ErrWant)
    (msg : List MsgArg) : Except String (List Report) :=
  match want with
  | .wNil =>
    .ok (match got with
      | some g =>
        [⟨false, "unexpected error: %s;%s", [.aErr (some g), .aStr (formatMsg env msg)]⟩]
      | none => [])
  | .wStr w =>
    match got with
    | none => .error "runtime error: invalid memory address or nil pointer dereference"
    | some g =>
      .ok (if !strContains (errMsg g) w then
        [⟨false, "got: %q; want: %q;%s",
          [.aErr (some g), .aStr w, .aStr (formatMsg env msg)]⟩]
      else [])
  | .wErr w =>
    .ok (if !errorsIs got w then
      match got with
      | none =>
        [⟨false, "got: <nil>; want: %T(%v);%s",
          [.aErr (some w), .aErr (some w), .aStr (formatMsg env msg)]⟩]
      | some g =>
        [⟨false, "got: %T(%v); want: %T(%v);%s",
          [.aErr (some g), .aErr (some g), .aErr (some w), .aErr (some w),
            .aStr (formatMsg env msg)]⟩]
    else [])
  | .wType ty =>
    .ok (if !errorsAs got ty then
      [⟨false, "got: %T; want: %v;%s", [.aErr got, .aTy ty, .aStr (formatMsg env msg)]⟩]
    else [])
  | .wTypeNonErr ty =>
    match got with
    | none =>
      .ok [⟨false, "got: %T; want: %v;%s", [.aErr none, .aTy ty, .aStr (formatMsg env msg)]⟩]
    | some _ => .error "errors: *target must be interface or implement error"
  | .wOther tyName =>
    .ok [⟨true, "unsupported want type: %T", [.aTy tyName]⟩]

/-- `ErrorAs(t, got, target, msgAndArgs...)` (`assert.go` line 285).  A
nil `got` is reported and returned from before `errors.As` is reached, so
it never panics; a non-nil `got` reaches `errors.As`, which panics when
the target is invalid.  The mismatch report's format string is
transcribed verbatim from the source: `"got: %v#; want assignable to:
%T(%#v);%s"`, with only the three arguments `got`, `target` and the
formatted suffix following it. -/
def ErrorAs (env : FmtEnv) (got : Option GoError) (target : ErrTarget)
    (msg : List MsgArg) : Except String (List Report) :=
  match got with
  | none =>
    .ok [⟨false, "got: nil; want assignable to: %T;%s",
      [.aTarget target, .aStr (formatMsg env msg)]⟩]
  | some g =>
    match target with
    | .invalid panicMsg _ => .error panicMsg
    | .ptr ty =>
      .ok (if !errorAs g ty then
        [⟨false, "got: %v#; want assignable to: %T(%#v);%s",
          [.aErr (some g), .aTarget target, .aStr (formatMsg env msg)]⟩]
      else [])

/-- `MatchesRegexp(t, got, pattern, msgAndArgs...)` (`assert.go` line
299).  `regexp.MatchString` belongs to the host and is a parameter:
`matchString pattern got` is its compile-error-or-matched outcome. -/
def MatchesRegexp (env : FmtEnv)
    (matchString : String → String → Except String Bool)
    (got pattern : String) (msg : List MsgArg) : List Report :=
  match matchString pattern got with
  | .error e =>
    [⟨true, "unable to parse regexp pattern %s: %s", [.aStr pattern, .aStr e]⟩]
  | .ok true => []
  | .ok false =>
    [⟨false, "got: %q; want to match %q;%s",
      [.aStr got, .aStr pattern, .aStr (formatMsg env msg)]⟩]

/-- Whether a modelled computation finished normally (no panic). -/
def exceptOk {α : Type} : Except String α → Bool
  | .ok _ => true
  | .error _ => false

mutual

/-- The values at which the host's deep structural equality is reflexive:
everything except values containing a floating-point NaN or a non-nil
function value (for which Go's `==`, hence `reflect.DeepEqual`, is
irreflexive). -/
def reflOk : GoVal → Bool
  | .vFloat none => false
  | .vFunc (some _) => false
  | .vSlice _ (some xs) => reflOkList xs
  | .vPtr _ (some x) => reflOk x
  | .vStruct _ fs => reflOkList fs
  | _ => true

/-- `reflOk` holding of every element of a list. -/
def reflOkList : List GoVal → Bool
  | [] => true
  | x :: xs => reflOk x && reflOkList xs

end

mutual

theorem deepEqual_refl : ∀ v : GoVal, reflOk v = true → deepEqual v v = true
  | .vBool b, _ => by simp [deepEqual]
  | .vInt w n, _ => by simp [deepEqual]
  | .vFloat (some a), _ => by simp [deepEqual]
  | .vFloat none, h => by simp [reflOk] at h
  | .vString s, _ => by simp [deepEqual]
  | .vBytes none, _ => by simp [deepEqual]
  | .vBytes (some xs), _ => by simp [deepEqual]
  | .vSlice t none, _ => by simp [deepEqual]
  | .vSlice t (some xs), h => by
      simp [reflOk] at h
      simp [deepEqual, deepEqualList_refl xs h]
  | .vPtr t none, _ => by simp [deepEqual]
  | .vPtr t (some x), h => by
      simp [reflOk] at h
      simp [deepEqual, deepEqual_refl x h]
  | .vFunc none, _ => by simp [deepEqual]
  | .vFunc (some i), h => by simp [reflOk] at h
  | .vChan a, _ => by simp [deepEqual]
  | .vStruct t fs, h => by
      simp [reflOk] at h
      simp [deepEqual, deepEqualList_refl fs h]
  | .vCustom t k n, _ => by simp [deepEqual]
  | .vNilInterface, _ => by simp [deepEqual]

theorem deepEqualList_refl : ∀ l : List GoVal, reflOkList l = true → deepEqualList l l = true
  | [], _ => by simp [deepEqualList]
  | x :: xs, h => by
      simp [reflOkList] at h
      simp [deepEqualList, deepEqual_refl x h.1, deepEqualList_refl xs h.2]

end

/-- `isEqual` is reflexive at every `reflOk` value: the double-nil rule,
the custom `Equal` method, byte equality and deep equality each judge a
value equal to itself. -/
theorem isEqual_refl (T : GoTy) (v : GoVal) (h : reflOk v = true) :
    isEqual T v v = .ok true := by
  have hd := deepEqual_refl v h
  unfold isEqual
  split
  · rfl
  · split
    · next himp =>
        cases v <;> simp [implementsEqualer] at himp
        all_goals simp [customEqual]
    · cases v <;> simp_all [bytesEqual]

/-- C1: whenever both `got` and `want` satisfy the nilness check, `isEqual`
returns true, regardless of the type argument and of the two values'
dynamic types (first rule of the comparator, `assert.go` line 315). -/
theorem isEqual_double_nil (T : GoTy) (got want : GoVal)
    (hg : isNil got = true) (hw : isNil want = true) :
    isEqual T got want = .ok true := by
  unfold isEqual
  simp [hg, hw]

/-- C1 witness: a nil pointer of type `*A` and a nil pointer of type `*B`,
compared at an interface type, are judged equal. -/
theorem isEqual_double_nil_witness :
    isNil (.vPtr "A" none) = true ∧ isNil (.vPtr "B" none) = true ∧
      isEqual .anyTy (.vPtr "A" none) (.vPtr "B" none) = .ok true :=
  ⟨rfl, rfl, isEqual_double_nil .anyTy (.vPtr "A" none) (.vPtr "B" none) rfl rfl⟩

/-- C2 counterexample: the claim asserts a nil byte sequence and an empty
one are NOT equal, but `isEqual` on a nil `[]byte` against an empty
`[]byte` returns true (the double-nil rule does not fire, and the
byte-slice case uses `bytes.Equal`, for which nil and empty agree —
length 0 each). -/
theorem isEqual_bytes_nil_empty_cex :
    isNil (.vBytes none) = true ∧ isNil (.vBytes (some [])) = false ∧
      isEqual (.concrete "bytes") (.vBytes none) (.vBytes (some [])) = .ok true :=
  ⟨rfl, rfl, rfl⟩

/-- C2 amended: for byte sequences, `isEqual` returns true exactly when the
two sequences have the same length and are elementwise equal with a nil
sequence read as the empty one (list equality of their contents); in
particular nil and empty byte sequences ARE equal. -/
theorem isEqual_bytes_amended (T : GoTy) (a b : Option (List Nat)) :
    isEqual T (.vBytes a) (.vBytes b) = .ok (a.getD [] == b.getD []) := by
  unfold isEqual
  cases a <;> cases b <;> simp [isNil, implementsEqualer, bytesEqual]

/-- C3 counterexample: at a floating-point NaN, `Equal(t, v, v)` reports a
failure (so it is not the case that `Equal(t, v, v)` never fails), and
`NotEqual(t, v, v)` reports nothing (so it is not the case that
`NotEqual(t, v, v)` always fails): `reflect.DeepEqual` compares numbers
with `==`, which is irreflexive at NaN. -/
theorem equal_not_reflexive_at_nan_cex :
    Equal plainFmt (.concrete "float64") (.vFloat none) (.vFloat none) [] =
        .ok [⟨false, "got: %#v; want: %#v;%s",
          [.aVal (.vFloat none), .aVal (.vFloat none), .aStr ""]⟩] ∧
      NotEqual plainFmt (.concrete "float64") (.vFloat none) (.vFloat none) [] = .ok [] :=
  ⟨rfl, rfl⟩

/-- C3 amended: for every value free of NaN and of non-nil function values
(where the host's deep equality is reflexive), `Equal(t, v, v)` reports
nothing and `NotEqual(t, v, v)` always reports a failure. -/
theorem equal_refl_amended (env : FmtEnv) (T : GoTy) (v : GoVal)
    (msg : List MsgArg) (h : reflOk v = true) :
    Equal env T v v msg = .ok [] ∧
      NotEqual env T v v msg =
        .ok [⟨false, "got: %#v; expected values to be different;%s",
          [.aVal v, .aStr (formatMsg env msg)]⟩] := by
  constructor <;> simp [Equal, NotEqual, isEqual_refl T v h]

/-- C3 amended witness: at the integer 7. -/
theorem equal_refl_amended_witness :
    reflOk (.vInt 64 7) = true ∧
      (Equal plainFmt (.concrete "int") (.vInt 64 7) (.vInt 64 7) [] = .ok [] ∧
        NotEqual plainFmt (.concrete "int") (.vInt 64 7) (.vInt 64 7) [] =
          .ok [⟨false, "got: %#v; expected values to be different;%s",
            [.aVal (.vInt 64 7), .aStr ""]⟩]) :=
  ⟨rfl, equal_refl_amended plainFmt (.concrete "int") (.vInt 64 7) [] rfl⟩

/-- C4: when the double-nil short-circuit does not fire and `got`'s
dynamic type implements `Equal(T) bool` at the compared type `T`,
`isEqual` returns exactly the result of `got`'s `Equal` method applied to
`want`; the structural fallback is not reached. -/
theorem isEqual_defers_to_equaler (T : GoTy) (got want : GoVal)
    (hnn : ¬(isNil got = true ∧ isNil want = true))
    (himp : implementsEqualer got T = true) :
    isEqual T got want = .ok (customEqual got want) := by
  unfold isEqual
  have hb : (isNil got && isNil want) = false := by
    cases hg : isNil got <;> cases hw : isNil want <;> simp_all
  simp [hb, himp]

/-- C4 witness: two `noisy`-like values with equal `key` but different
`noise` fields are judged equal, because the custom `Equal` method (which
ignores `noise`) decides. -/
theorem isEqual_defers_to_equaler_witness :
    ¬(isNil (GoVal.vCustom "noisy" 42 1) = true ∧
        isNil (GoVal.vCustom "noisy" 42 2) = true) ∧
      implementsEqualer (GoVal.vCustom "noisy" 42 1) (.concrete "noisy") = true ∧
      isEqual (.concrete "noisy") (.vCustom "noisy" 42 1) (.vCustom "noisy" 42 2) =
        .ok (customEqual (.vCustom "noisy" 42 1) (.vCustom "noisy" 42 2)) ∧
      customEqual (.vCustom "noisy" 42 1) (.vCustom "noisy" 42 2) = true :=
  ⟨by simp [isNil], by simp [implementsEqualer],
    isEqual_defers_to_equaler (.concrete "noisy") (.vCustom "noisy" 42 1)
      (.vCustom "noisy" 42 2) (by simp [isNil]) (by simp [implementsEqualer]),
    by simp [customEqual]⟩

/-- C5 counterexample: on a mismatch, `Equal` reports through the
handle's NONFATAL formatted path (`t.Errorf`, recorded as `fatal :=
false`), not the fatal path the claim names: at got 1, want 2 the single
report has `fatal = false`. -/
theorem equal_reports_nonfatal_cex :
    Equal plainFmt (.concrete "int") (.vInt 64 1) (.vInt 64 2) [] =
      .ok [⟨false, "got: %#v; want: %#v;%s",
        [.aVal (.vInt 64 1), .aVal (.vInt 64 2), .aStr ""]⟩] :=
  rfl

/-- C5 amended: when `Equal(t, got, want)` finds `isEqual(got, want)`
false, it reports the failure through the handle's nonfatal formatted
path (`Errorf`), with the format string `"got: %#v; want: %#v;%s"`
applied to `got`, `want` and the formatted suffix. -/
theorem equal_failure_report (env : FmtEnv) (T : GoTy) (got want : GoVal)
    (msg : List MsgArg) (h : isEqual T got want = .ok false) :
    Equal env T got want msg =
      .ok [⟨false, "got: %#v; want: %#v;%s",
        [.aVal got, .aVal want, .aStr (formatMsg env msg)]⟩] := by
  simp [Equal, h]

/-- C5 amended witness: got 1difference, want 2. -/
theorem equal_failure_report_witness :
    isEqual (.concrete "int") (.vInt 64 1) (.vInt 64 2) = .ok false ∧
      Equal plainFmt (.concrete "int") (.vInt 64 1) (.vInt 64 2) [] =
        .ok [⟨false, "got: %#v; want: %#v;%s",
          [.aVal (.vInt 64 1), .aVal (.vInt 64 2), .aStr ""]⟩] :=
  ⟨rfl, equal_failure_report plainFmt (.concrete "int") (.vInt 64 1) (.vInt 64 2) [] rfl⟩

/-- The inputs at which the comparator's byte-slice case panics: `got` is
a byte slice, `want` is not, and the double-nil short-circuit did not
already return (the unchecked type assertion `any(want).([]byte)` on
`assert.go` line 325 then fails). -/
def bytesPanic (got want : GoVal) : Bool :=
  (match got with | .vBytes _ => true | _ => false) &&
    (match want with | .vBytes _ => false | _ => true) &&
    !(isNil got && isNil want)

/-- The inputs at which `ErrorIs` panics: a nil `got` in the string arm,
where the source calls `got.Error()` on the nil error interface
(`assert.go` line 264); and a non-nil `got` in the `reflect.Type` arm
when the described type neither implements `error` nor is an interface,
where `errors.As` panics on the `*T` target (`assert.go` line 277). -/
def errorIsPanic (got : Option GoError) (want : ErrWant) : Bool :=
  match got, want with
  | none, .wStr _ => true
  | some _, .wTypeNonErr _ => true
  | _, _ => false

/-- The inputs at which `ErrorAs` panics: a non-nil `got` (so the nil
check at `assert.go` line 290 does not report and return first) together
with an invalid `errors.As` target, which `errors.As` rejects with a
panic at `assert.go` line 294. -/
def errorAsPanic (got : Option GoError) (target : ErrTarget) : Bool :=
  match got, target with
  | some _, .invalid _ _ => true
  | _, _ => false

/-- C6 counterexample: `ErrorIs` with a nil `got` and the nonempty string
want `"boom"` does NOT communicate through the reporting handle — it
raises a runtime fault (nil interface method call on `got.Error()`) that
unwinds past the assertion call; likewise `Equal` at an interface type on
a byte-slice `got` against a non-byte-slice `want` (failed type
assertion), `ErrorAs` with a non-nil `got` and a non-pointer target, and
`ErrorIs` with a non-nil `got` and a `reflect.Type` want describing a
non-error type (both `errors.As` target-validation panics). -/
theorem errorIs_nil_string_panics_cex :
    ErrorIs plainFmt none (.wStr "boom") [] =
        .error "runtime error: invalid memory address or nil pointer dereference" ∧
      Equal plainFmt .anyTy (.vBytes (some [1])) (.vInt 64 1) [] =
        .error "interface conversion: want is not a byte slice" ∧
      ErrorAs plainFmt (some (.base "*errors.errorString" 1 "oops"))
          (.invalid "errors: target must be a non-nil pointer" "int") [] =
        .error "errors: target must be a non-nil pointer" ∧
      ErrorIs plainFmt (some (.base "*errors.errorString" 1 "oops"))
          (.wTypeNonErr "int") [] =
        .error "errors: *target must be interface or implement error" :=
  ⟨rfl, rfl, rfl, rfl⟩

/-- The comparator finishes normally exactly outside the `bytesPanic`
input class. -/
theorem isEqual_ok_iff (T : GoTy) (got want : GoVal) :
    exceptOk (isEqual T got want) = !bytesPanic got want := by
  unfold isEqual bytesPanic
  split
  · next hnil => simp [hnil, exceptOk]
  · next hnil =>
      simp only [Bool.not_eq_true] at hnil
      split
      · next himp =>
          cases got <;> simp [implementsEqualer] at himp
          simp [exceptOk]
      · cases got <;> simp [exceptOk, hnil]
        cases want <;> simp [exceptOk, hnil]

/-- `Equal` finishes normally exactly when the comparator does. -/
theorem equal_ok_eq (env : FmtEnv) (T : GoTy) (got want : GoVal) (msg : List MsgArg) :
    exceptOk (Equal env T got want msg) = exceptOk (isEqual T got want) := by
  unfold Equal
  rcases h : isEqual T got want with e | b
  · simp [exceptOk]
  · cases b <;> simp [exceptOk]

/-- `NotEqual` finishes normally exactly when the comparator does. -/
theorem notEqual_ok_eq (env : FmtEnv) (T : GoTy) (got want : GoVal) (msg : List MsgArg) :
    exceptOk (NotEqual env T got want msg) = exceptOk (isEqual T got want) := by
  unfold NotEqual
  rcases h : isEqual T got want with e | b
  · simp [exceptOk]
  · cases b <;> simp [exceptOk]

/-- C6 amended: a public assertion call finishes normally — communicating
only through the reporting handle — except in exactly four input classes:
`Equal`/`NotEqual` when `got` holds a byte slice, `want` does not, and
the double-nil rule does not fire (failed type assertion on `want`);
`ErrorIs` when `got` is nil and `want` is a string (method call on a nil
error); `ErrorIs` when `got` is non-nil and `want` is a `reflect.Type`
describing a type that neither implements `error` nor is an interface
(`errors.As` target-validation panic); and `ErrorAs` when `got` is
non-nil and the target is not a non-nil pointer to an error-implementing
or interface type (same panic; a nil `got` is reported and returned from
before `errors.As` runs).  `Nil`, `NotNil` and `MatchesRegexp` contain
no panicking operation (their embeddings are total functions into report
lists). -/
theorem no_panic_amended :
    (∀ (env : FmtEnv) (T : GoTy) (got want : GoVal) (msg : List MsgArg),
        exceptOk (Equal env T got want msg) = !bytesPanic got want) ∧
      (∀ (env : FmtEnv) (T : GoTy) (got want : GoVal) (msg : List MsgArg),
        exceptOk (NotEqual env T got want msg) = !bytesPanic got want) ∧
      (∀ (env : FmtEnv) (got : Option GoError) (want : ErrWant) (msg : List MsgArg),
        exceptOk (ErrorIs env got want msg) = !errorIsPanic got want) ∧
      (∀ (env : FmtEnv) (got : Option GoError) (target : ErrTarget) (msg : List MsgArg),
        exceptOk (ErrorAs env got target msg) = !errorAsPanic got target) := by
  refine ⟨?_, ?_, ?_, ?_⟩
  · intro env T got want msg
    rw [equal_ok_eq, isEqual_ok_iff]
  · intro env T got want msg
    rw [notEqual_ok_eq, isEqual_ok_iff]
  · intro env got want msg
    cases want <;> cases got <;> simp [ErrorIs, errorIsPanic, exceptOk]
  · intro env got target msg
    cases got <;> cases target <;> simp [ErrorAs, errorAsPanic, exceptOk]

/-- C7: `MatchesRegexp` reports fatally, naming the pattern and the
compile error, when the pattern fails to compile (never consulting match
success, which the compile failure does not even produce); reports
nonfatally with `"got: %q; want to match %q;%s"` when the pattern
compiles but does not match; and reports nothing when it matches. -/
theorem matchesRegexp_reports (env : FmtEnv)
    (matchString : String → String → Except String Bool)
    (got pattern : String) (msg : List MsgArg) :
    (∀ e, matchString pattern got = .error e →
        MatchesRegexp env matchString got pattern msg =
          [⟨true, "unable to parse regexp pattern %s: %s", [.aStr pattern, .aStr e]⟩]) ∧
      (matchString pattern got = .ok false →
        MatchesRegexp env matchString got pattern msg =
          [⟨false, "got: %q; want to match %q;%s",
            [.aStr got, .aStr pattern, .aStr (formatMsg env msg)]⟩]) ∧
      (matchString pattern got = .ok true →
        MatchesRegexp env matchString got pattern msg = []) := by
  refine ⟨fun e h => ?_, fun h => ?_, fun h => ?_⟩ <;> simp [MatchesRegexp, h]

/-- A toy stand-in for `regexp.MatchString` used only to instantiate
closed statements: the pattern `"["` fails to compile, every other
pattern matches exactly the string equal to itself. -/
def toyMatchString (pattern got : String) : Except String Bool :=
  if pattern = "[" then .error "error parsing regexp: missing closing ]"
  else .ok (pattern == got)

/-- C7 witness: the unbalanced pattern `"["` reports fatally naming the
pattern and the parse error; a compiling pattern that does not match
`"abc123d"` reports nonfatally; a matching pattern reports nothing. -/
theorem matchesRegexp_reports_witness :
    toyMatchString "[" "abc" = .error "error parsing regexp: missing closing ]" ∧
      MatchesRegexp plainFmt toyMatchString "abc" "[" [] =
        [⟨true, "unable to parse regexp pattern %s: %s",
          [.aStr "[", .aStr "error parsing regexp: missing closing ]"]⟩] ∧
      MatchesRegexp plainFmt toyMatchString "abc123d" "abc[123]+$" [] =
        [⟨false, "got: %q; want to match %q;%s",
          [.aStr "abc123d", .aStr "abc[123]+$", .aStr ""]⟩] ∧
      MatchesRegexp plainFmt toyMatchString "abc" "abc" [] = [] := by
  refine ⟨rfl, ?_, ?_, ?_⟩
  · exact (matchesRegexp_reports plainFmt toyMatchString "abc" "[" []).1 _ rfl
  · exact (matchesRegexp_reports plainFmt toyMatchString "abc123d" "abc[123]+$" []).2.1 rfl
  · exact (matchesRegexp_reports plainFmt toyMatchString "abc" "abc" []).2.2 rfl

/-- C8: evaluating `ErrorAs` at a failing input (a base error whose chain
does not contain the target type).  The source's mismatch report uses the
format string `"got: %v#; want assignable to: %T(%#v);%s"` — the verb
`%v#` instead of `%#v` after `got:`, and four verbs for the three
arguments `got`, `target`, suffix, so the suffix lands in the `%#v` slot
and `%s` is left without an argument — instead of the specified
`"got: {got}; want assignable to: {targetType}({target!r});"` + suffix. -/
theorem errorAs_mismatch_report_bug :
    ErrorAs plainFmt (some (.base "*errors.errorString" 1 "oops"))
        (.ptr "fs.PathError") [] =
      .ok [⟨false, "got: %v#; want assignable to: %T(%#v);%s",
        [.aErr (some (.base "*errors.errorString" 1 "oops")),
          .aTarget (.ptr "fs.PathError"), .aStr ""]⟩] :=
  rfl

/-- C9: `formatMsg` with no arguments is empty; with one plain-string
argument it is a space then that string verbatim (never read as a format
template); with two or more arguments led by a plain string it is a space
then the first argument used as a template over the rest; and every
nonempty result starts with a space, never a semicolon. -/
theorem formatMsg_spec (env : FmtEnv) :
    formatMsg env [] = "" ∧
      (∀ s, formatMsg env [.mStr s] = " " ++ s) ∧
      (∀ s a rest, formatMsg env (.mStr s :: a :: rest) = " " ++ env.sprintf s (a :: rest)) ∧
      (∀ args, formatMsg env args = "" ∨ ∃ t, formatMsg env args = " " ++ t) := by
  refine ⟨rfl, fun s => rfl, fun s a rest => rfl, fun args => ?_⟩
  match args with
  | [] => exact Or.inl rfl
  | [a] => exact Or.inr ⟨_, rfl⟩
  | a :: b :: rest => exact Or.inr ⟨_, rfl⟩

/-- C10: whenever a public assertion's success condition holds, it makes
no report at all through the handle (the returned report list is empty),
leaving the test's recorded failure state unchanged. -/
theorem passing_assertions_silent :
    (∀ (env : FmtEnv) (T : GoTy) (got want : GoVal) (msg : List MsgArg),
        isEqual T got want = .ok true → Equal env T got want msg = .ok []) ∧
      (∀ (env : FmtEnv) (T : GoTy) (got want : GoVal) (msg : List MsgArg),
        isEqual T got want = .ok false → NotEqual env T got want msg = .ok []) ∧
      (∀ (env : FmtEnv) (got : GoVal) (msg : List MsgArg),
        isNil got = true → Nil env got msg = []) ∧
      (∀ (env : FmtEnv) (got : GoVal) (msg : List MsgArg),
        isNil got = false → NotNil env got msg = []) ∧
      (∀ (env : FmtEnv) (msg : List MsgArg), ErrorIs env none .wNil msg = .ok []) ∧
      (∀ (env : FmtEnv) (g : GoError) (w : String) (msg : List MsgArg),
        strContains (errMsg g) w = true → ErrorIs env (some g) (.wStr w) msg = .ok []) ∧
      (∀ (env : FmtEnv) (got : Option GoError) (w : GoError) (msg : List MsgArg),
        errorsIs got w = true → ErrorIs env got (.wErr w) msg = .ok []) ∧
      (∀ (env : FmtEnv) (got : Option GoError) (ty : String) (msg : List MsgArg),
        errorsAs got ty = true → ErrorIs env got (.wType ty) msg = .ok []) ∧
      (∀ (env : FmtEnv) (g : GoError) (ty : String) (msg : List MsgArg),
        errorAs g ty = true → ErrorAs env (some g) (.ptr ty) msg = .ok []) ∧
      (∀ (env : FmtEnv) (ms : String → String → Except String Bool)
          (got pat : String) (msg : List MsgArg),
        ms pat got = .ok true → MatchesRegexp env ms got pat msg = []) := by
  refine ⟨?_, ?_, ?_, ?_, ?_, ?_, ?_, ?_, ?_, ?_⟩ <;> intros <;>
    simp_all [Equal, NotEqual, Nil, NotNil, ErrorIs, ErrorAs, MatchesRegexp]

/-- C10 witness: one passing call of each assertion, each reporting
nothing. -/
theorem passing_assertions_silent_witness :
    Equal plainFmt (.concrete "int") (.vInt 64 7) (.vInt 64 7) [] = .ok [] ∧
      NotEqual plainFmt (.concrete "int") (.vInt 64 7) (.vInt 64 8) [] = .ok [] ∧
      Nil plainFmt .vNilInterface [] = [] ∧
      NotNil plainFmt (.vInt 64 7) [] = [] ∧
      ErrorIs plainFmt none .wNil [] = .ok [] ∧
      ErrorIs plainFmt (some (.base "e" 1 "the night is dark")) (.wStr "night") [] = .ok [] ∧
      ErrorIs plainFmt (some (.base "e" 1 "oops")) (.wErr (.base "e" 1 "oops")) [] = .ok [] ∧
      ErrorIs plainFmt (some (.base "assert.errType" 1 "oops")) (.wType "assert.errType") [] =
        .ok [] ∧
      ErrorAs plainFmt (some (.base "assert.errType" 1 "oops")) (.ptr "assert.errType") [] =
        .ok [] ∧
      MatchesRegexp plainFmt toyMatchString "abc" "abc" [] = [] := by
  obtain ⟨h1, h2, h3, h4, h5, h6, h7, h8, h9, h10⟩ := passing_assertions_silent
  exact ⟨h1 _ _ _ _ _ rfl, h2 _ _ _ _ _ rfl, h3 _ _ _ rfl, h4 _ _ _ rfl, h5 _ _,
    h6 _ _ _ _ rfl, h7 _ _ _ _ rfl, h8 _ _ _ _ rfl, h9 _ _ _ _ rfl, h10 _ _ _ _ _ rfl⟩

end Assert
